import Mathlib

set_option maxHeartbeats 1000000

/-!
Shallow embedding of the Recording Session Controller and Text Injection
Subsystem of Whisper4Windows (src/frontend/src-tauri/src/lib.rs).

OS interactions (Win32 clipboard, SendInput, Tauri window operations, backend
HTTP calls) are modelled as deterministic functions over an explicit clipboard
state, per-call failure oracles (one Bool per fallible OS call), and an event
trace recording each observable effect in program order.
-/

/-- A JSON value as built by serde_json in cmd_start_recording. -/
inductive JVal where
  | null : JVal
  | str : String → JVal
  | int : Int → JVal
deriving DecidableEq, Repr

/-- Observable effects of the program, in program order. -/
inductive Event where
  | openClip : Event
  | closeClip : Event
  | emptyClip : Event
  | getData : Event
  | alloc : Event
  | lock : Event
  | unlock : Event
  | setData : List Nat → Event
  | sleep : Nat → Event
  | sendInput : Event
  | evalScript : String → Event
  | setPosition : Event
  | showWindow : Event
  | hideWindow : Event
  | backendStart : List (String × JVal) → Event
  | backendStop : Event
  | backendCancel : Event
deriving DecidableEq, Repr

/-- System clipboard state: whether this process holds it open, and its
text content as raw UTF-16 code units (none when no text is available). -/
structure ClipState where
  isOpen : Bool
  content : Option (List Nat)
deriving DecidableEq, Repr

/-- Failure oracle for the OS calls made by get_clipboard_text:
OpenClipboard, GetClipboardData, GlobalLock. -/
structure ReadEnv where
  openOk : Bool
  getDataOk : Bool
  lockOk : Bool
deriving DecidableEq, Repr

/-- Failure oracle for the OS calls made by set_clipboard_text:
OpenClipboard, EmptyClipboard, GlobalAlloc, GlobalLock, SetClipboardData. -/
structure WriteEnv where
  openOk : Bool
  emptyOk : Bool
  allocOk : Bool
  lockOk : Bool
  setDataOk : Bool
deriving DecidableEq, Repr

/-- All-success read environment. -/
def rAllOk : ReadEnv := ⟨true, true, true⟩

/-- All-success write environment. -/
def wAllOk : WriteEnv := ⟨true, true, true, true, true⟩

/-- Embedding of get_clipboard_text (lib.rs lines 48-88): open the clipboard,
fetch the CF_UNICODETEXT handle, lock it, copy GlobalSize bytes, unlock,
close.  Every failure returns None after closing; GetClipboardData succeeds
exactly when the clipboard holds text and the OS call itself succeeds; a
zero-size payload also yields None.  Returns the snapshot, the final
clipboard state and the event trace. -/
def get_clipboard_text (env : ReadEnv) (clip : ClipState) :
    Option (List Nat) × ClipState × List Event :=
  if env.openOk = false then
    (none, clip, [Event.openClip])
  else
    match clip.content with
    | none =>
        (none, { clip with isOpen := false },
         [Event.openClip, Event.getData, Event.closeClip])
    | some data =>
        if env.getDataOk = false then
          (none, { clip with isOpen := false },
           [Event.openClip, Event.getData, Event.closeClip])
        else if env.lockOk = false then
          (none, { clip with isOpen := false },
           [Event.openClip, Event.getData, Event.lock, Event.closeClip])
        else if data.length = 0 then
          (none, { clip with isOpen := false },
           [Event.openClip, Event.getData, Event.lock, Event.unlock,
            Event.closeClip])
        else
          (some data, { clip with isOpen := false },
           [Event.openClip, Event.getData, Event.lock, Event.unlock,
            Event.closeClip])

/-- Embedding of set_clipboard_text (lib.rs lines 91-125): open, empty,
GlobalAlloc, GlobalLock, copy, GlobalUnlock, SetClipboardData, close.
Each failure branch mirrors the source exactly; in particular the GlobalAlloc
failure propagates through the question-mark operator WITHOUT a CloseClipboard
call, so on that path the clipboard stays open (and already emptied). -/
def set_clipboard_text (env : WriteEnv) (text_utf16 : List Nat)
    (clip : ClipState) : Except String Unit × ClipState × List Event :=
  if env.openOk = false then
    (Except.error "Failed to open clipboard", clip, [Event.openClip])
  else if env.emptyOk = false then
    (Except.error "Failed to empty clipboard", { clip with isOpen := false },
     [Event.openClip, Event.emptyClip, Event.closeClip])
  else if env.allocOk = false then
    (Except.error "Failed to allocate memory",
     { isOpen := true, content := none },
     [Event.openClip, Event.emptyClip, Event.alloc])
  else if env.lockOk = false then
    (Except.error "Failed to lock memory", { isOpen := false, content := none },
     [Event.openClip, Event.emptyClip, Event.alloc, Event.lock,
      Event.closeClip])
  else if env.setDataOk = false then
    (Except.error "Failed to set clipboard data",
     { isOpen := false, content := none },
     [Event.openClip, Event.emptyClip, Event.alloc, Event.lock, Event.unlock,
      Event.setData text_utf16, Event.closeClip])
  else
    (Except.ok (), { isOpen := false, content := some text_utf16 },
     [Event.openClip, Event.emptyClip, Event.alloc, Event.lock, Event.unlock,
      Event.setData text_utf16, Event.closeClip])

/-- UTF-16 code units of one character, as Rust's encode_utf16 produces them
(surrogate pair above U+FFFF). -/
def charUtf16 (c : Char) : List Nat :=
  if c.toNat < 65536 then [c.toNat]
  else [55296 + (c.toNat - 65536) / 1024, 56320 + (c.toNat - 65536) % 1024]

/-- Rust's text.encode_utf16().collect() over a whole string. -/
def utf16Encode (s : String) : List Nat :=
  s.data.flatMap charUtf16

/-- Embedding of inject_text (lib.rs lines 128-190): when save_to_clipboard is
false, snapshot the old clipboard; encode the text as UTF-16 plus a NUL
terminator; write it to the clipboard (propagating a write error before any
keystroke); sleep 10 ms; SendInput the Ctrl+V sequence; when
save_to_clipboard is false and a snapshot was captured, sleep 50 ms and write
the snapshot back, ignoring that restore result. -/
def inject_text (text : String) (save_to_clipboard : Bool)
    (readEnv : ReadEnv) (writeEnv restoreEnv : WriteEnv) (clip : ClipState) :
    Except String Unit × ClipState × List Event :=
  let pre :=
    if save_to_clipboard then ((none : Option (List Nat)), clip, ([] : List Event))
    else get_clipboard_text readEnv clip
  let text_utf16 := utf16Encode text ++ [0]
  let w := set_clipboard_text writeEnv text_utf16 pre.2.1
  match w.1 with
  | Except.error e => (Except.error e, w.2.1, pre.2.2 ++ w.2.2)
  | Except.ok _ =>
      let tr3 := pre.2.2 ++ w.2.2 ++ [Event.sleep 10, Event.sendInput]
      if save_to_clipboard then (Except.ok (), w.2.1, tr3)
      else
        match pre.1 with
        | some old_text =>
            let r := set_clipboard_text restoreEnv old_text w.2.1
            (Except.ok (), r.2.1, tr3 ++ [Event.sleep 50] ++ r.2.2)
        | none => (Except.ok (), w.2.1, tr3)

/-- Outcome of the POST /stop round trip in cmd_stop_recording: transport
failure, non-success HTTP status, unparsable JSON body, or a parsed JSON body
with an optional "text" field. -/
inductive StopResp where
  | transportErr : StopResp
  | httpErr : StopResp
  | badJson : StopResp
  | okJson : Option String → StopResp
deriving DecidableEq, Repr

/-- The text cmd_stop_recording extracts from the /stop response: present only
when the call succeeded, the body parsed, and it held a string "text" field. -/
def respText : StopResp → Option String
  | StopResp.okJson t => t
  | _ => none

/-- The tail of cmd_stop_recording: inject the transcript when one is present
(injection failures are logged, never propagated), otherwise do nothing. -/
def stopInject (textToInject : Option String) (useClip : Bool)
    (readEnv : ReadEnv) (writeEnv restoreEnv : WriteEnv) (clip : ClipState)
    (trAcc : List Event) : Except String Unit × ClipState × List Event :=
  match textToInject with
  | some t =>
      let r := inject_text t useClip readEnv writeEnv restoreEnv clip
      (Except.ok (), r.2.1, trAcc ++ r.2.2)
  | none => (Except.ok (), clip, trAcc)

/-- Embedding of cmd_stop_recording (lib.rs lines 301-369): when the
"recording" window exists, eval showProcessing() and playStopSound(); sleep
100 ms; await POST /stop; when the window exists, hide it (propagating a hide
error, which skips everything after); sleep 150 ms; inject the transcript if
one was extracted, with the current use_clipboard setting. -/
def cmd_stop_recording (wExists hideOk : Bool) (resp : StopResp)
    (useClip : Bool) (readEnv : ReadEnv) (writeEnv restoreEnv : WriteEnv)
    (clip : ClipState) : Except String Unit × ClipState × List Event :=
  let tr1 : List Event :=
    if wExists then
      [Event.evalScript "showProcessing()", Event.evalScript "playStopSound()"]
    else []
  let tr2 := tr1 ++ [Event.sleep 100, Event.backendStop]
  if wExists then
    if hideOk then
      stopInject (respText resp) useClip readEnv writeEnv restoreEnv clip
        (tr2 ++ [Event.hideWindow, Event.sleep 150])
    else (Except.error "Failed to hide window", clip, tr2 ++ [Event.hideWindow])
  else
    stopInject (respText resp) useClip readEnv writeEnv restoreEnv clip
      (tr2 ++ [Event.sleep 150])

/-- Failure oracle for the window operations of cmd_start_recording:
current_monitor (call success and whether a monitor was found), outer_size,
set_position, show. -/
structure StartEnv where
  monitorOk : Bool
  monitorSome : Bool
  outerOk : Bool
  setPosOk : Bool
  showOk : Bool
deriving DecidableEq, Repr

/-- The JSON body cmd_start_recording sends to POST /start: model_size,
language (JSON null exactly for the "auto" sentinel), device, and a
device_index key appended only when a microphone index is selected. -/
def startBody (model language device : String) (microphone : Option Int) :
    List (String × JVal) :=
  let base := [("model_size", JVal.str model),
               ("language", if language = "auto" then JVal.null
                            else JVal.str language),
               ("device", JVal.str device)]
  match microphone with
  | some i => base ++ [("device_index", JVal.int i)]
  | none => base

/-- Suffix of cmd_start_recording once positioning is done: show the window
(propagating a show error, which skips the backend call), eval
playStartSound(), then spawn the POST /start request. -/
def startShowAndSpawn (env : StartEnv) (body : List (String × JVal))
    (trAcc : List Event) : Except String Unit × List Event :=
  if env.showOk = false then
    (Except.error "Failed to show window", trAcc ++ [Event.showWindow])
  else
    (Except.ok (),
     trAcc ++ [Event.showWindow, Event.evalScript "playStartSound()",
               Event.backendStart body])

/-- Embedding of cmd_start_recording (lib.rs lines 203-268): when the
"recording" window exists, query the monitor (propagating the error), when a
monitor is found query outer_size and set_position (propagating errors), show
the window (propagating the error), eval playStartSound(), then spawn the
POST /start request built from the configured model, device, microphone and
language.  Without the window, only the backend request is spawned. -/
def cmd_start_recording (wExists : Bool) (env : StartEnv)
    (model device language : String) (microphone : Option Int) :
    Except String Unit × List Event :=
  let body := startBody model language device microphone
  if wExists then
    if env.monitorOk = false then (Except.error "Failed to get monitor", [])
    else if env.monitorSome then
      if env.outerOk = false then (Except.error "Failed to get window size", [])
      else if env.setPosOk = false then
        (Except.error "Failed to set position", [Event.setPosition])
      else startShowAndSpawn env body [Event.setPosition]
    else startShowAndSpawn env body []
  else (Except.ok (), [Event.backendStart body])

/-- Embedding of cmd_toggle_recording (lib.rs lines 373-390): when the
"recording" window exists, dispatch on its visibility (is_visible with
unwrap_or false) to cmd_stop_recording or cmd_start_recording; when it does
not exist, do nothing at all and return Ok. -/
def cmd_toggle_recording (wExists isVisible : Bool) (senv : StartEnv)
    (hideOk : Bool) (resp : StopResp) (model device language : String)
    (microphone : Option Int) (useClip : Bool) (readEnv : ReadEnv)
    (writeEnv restoreEnv : WriteEnv) (clip : ClipState) :
    Except String Unit × ClipState × List Event :=
  if wExists then
    if isVisible then
      cmd_stop_recording true hideOk resp useClip readEnv writeEnv restoreEnv
        clip
    else
      let r := cmd_start_recording true senv model device language microphone
      (r.1, clip, r.2)
  else (Except.ok (), clip, [])

/-- Embedding of AppState (lib.rs lines 23-31): the shared configuration
fields plus the backend process handle (modelled opaquely). -/
structure AppState where
  selected_model : String
  selected_device : String
  selected_microphone : Option Int
  use_clipboard : Bool
  selected_language : String
  toggle_shortcut : String
  backend_child : Option Nat
deriving DecidableEq, Repr

/-- Embedding of the set_model_and_device command (lib.rs lines 394-403). -/
def set_model_and_device (model device : String) (s : AppState) :
    AppState × Except String Unit :=
  ({ s with selected_model := model, selected_device := device },
   Except.ok ())

/-- Embedding of the set_microphone_device command (lib.rs lines 407-414). -/
def set_microphone_device (device_index : Option Int) (s : AppState) :
    AppState × Except String Unit :=
  ({ s with selected_microphone := device_index }, Except.ok ())

/-- Embedding of the set_clipboard_paste command (lib.rs lines 424-431). -/
def set_clipboard_paste (enabled : Bool) (s : AppState) :
    AppState × Except String Unit :=
  ({ s with use_clipboard := enabled }, Except.ok ())

/-- Embedding of the set_language command (lib.rs lines 442-446). -/
def set_language (language : String) (s : AppState) :
    AppState × Except String Unit :=
  ({ s with selected_language := language }, Except.ok ())

/-- Embedding of the save_shortcuts command (lib.rs lines 455-461): look up
the "toggle" key of the given map (modelled as an association list) and, when
present, store it as the toggle shortcut. -/
def save_shortcuts (shortcuts : List (String × String)) (s : AppState) :
    AppState × Except String Unit :=
  match shortcuts.lookup "toggle" with
  | some t => ({ s with toggle_shortcut := t }, Except.ok ())
  | none => (s, Except.ok ())

theorem sendInput_notin_get (env : ReadEnv) (clip : ClipState) :
    Event.sendInput ∉ (get_clipboard_text env clip).2.2 := by
  unfold get_clipboard_text
  repeat' split
  all_goals simp

theorem sendInput_notin_set (env : WriteEnv) (d : List Nat)
    (clip : ClipState) :
    Event.sendInput ∉ (set_clipboard_text env d clip).2.2 := by
  unfold set_clipboard_text
  repeat' split
  all_goals simp

/-- Claim C1: on the exit path where OpenClipboard and EmptyClipboard succeed
but GlobalAlloc fails, set_clipboard_text returns an error through the
question-mark operator without calling CloseClipboard, so the clipboard is
left open — contradicting the specified guarantee that the clipboard is
closed before returning on every exit path. -/
theorem set_clipboard_text_alloc_fail_leaves_open :
    (∃ msg, (set_clipboard_text ⟨true, true, false, true, true⟩ [72, 0]
        ⟨false, some [65]⟩).1 = Except.error msg) ∧
    (set_clipboard_text ⟨true, true, false, true, true⟩ [72, 0]
        ⟨false, some [65]⟩).2.1.isOpen = true :=
  ⟨⟨"Failed to allocate memory", rfl⟩, rfl⟩

/-- Claim C2: when the clipboard write step of inject_text fails (any of the
five OS calls of set_clipboard_text fails), inject_text returns an error, the
paste keystroke (SendInput) is never emitted, and the trace consists solely
of the snapshot read and the failed write — no restore is attempted. -/
theorem inject_text_write_failure (t : String) (save : Bool) (rEnv : ReadEnv)
    (wEnv rsEnv : WriteEnv) (clip : ClipState)
    (h : wEnv.openOk = false ∨ wEnv.emptyOk = false ∨ wEnv.allocOk = false ∨
         wEnv.lockOk = false ∨ wEnv.setDataOk = false) :
    (∃ msg, (inject_text t save rEnv wEnv rsEnv clip).1 = Except.error msg) ∧
    Event.sendInput ∉ (inject_text t save rEnv wEnv rsEnv clip).2.2 ∧
    (inject_text t save rEnv wEnv rsEnv clip).2.2 =
      (if save then ([] : List Event)
       else (get_clipboard_text rEnv clip).2.2) ++
      (set_clipboard_text wEnv (utf16Encode t ++ [0])
        (if save then clip else (get_clipboard_text rEnv clip).2.1)).2.2 := by
  rcases wEnv with ⟨o, e, a, l, s⟩
  cases save <;> cases o <;> cases e <;> cases a <;> cases l <;> cases s <;>
    simp_all [inject_text, set_clipboard_text, sendInput_notin_get]

/-- Claim C2 witness: a concrete failing write (OpenClipboard fails). -/
theorem inject_text_write_failure_witness :
    (∃ msg, (inject_text "A" false rAllOk ⟨false, true, true, true, true⟩
        wAllOk ⟨false, none⟩).1 = Except.error msg) ∧
    Event.sendInput ∉ (inject_text "A" false rAllOk
        ⟨false, true, true, true, true⟩ wAllOk ⟨false, none⟩).2.2 ∧
    (inject_text "A" false rAllOk ⟨false, true, true, true, true⟩ wAllOk
        ⟨false, none⟩).2.2 =
      (if false then ([] : List Event)
       else (get_clipboard_text rAllOk ⟨false, none⟩).2.2) ++
      (set_clipboard_text ⟨false, true, true, true, true⟩
        (utf16Encode "A" ++ [0])
        (if false then (⟨false, none⟩ : ClipState)
         else (get_clipboard_text rAllOk ⟨false, none⟩).2.1)).2.2 :=
  inject_text_write_failure "A" false rAllOk ⟨false, true, true, true, true⟩
    wAllOk ⟨false, none⟩ (Or.inl rfl)

/-- Claim C3: with the recording window present, the trace of
cmd_stop_recording always begins with the processing affordance, the stop
sound, the UI settle delay, the awaited backend stop call and the window
hide, in that order; any SendInput (the injection keystroke) can only occur
strictly after the hide, i.e. at index at least 5. -/
theorem cmd_stop_recording_ordering (hideOk : Bool) (resp : StopResp)
    (useClip : Bool) (rEnv : ReadEnv) (wEnv rsEnv : WriteEnv)
    (clip : ClipState) :
    (∃ tail,
      (cmd_stop_recording true hideOk resp useClip rEnv wEnv rsEnv clip).2.2 =
        [Event.evalScript "showProcessing()",
         Event.evalScript "playStopSound()", Event.sleep 100,
         Event.backendStop, Event.hideWindow] ++ tail) ∧
    (∀ i,
      (cmd_stop_recording true hideOk resp useClip rEnv wEnv rsEnv
          clip).2.2.get? i = some Event.sendInput → 5 ≤ i) := by
  have hdec : ∃ tail,
      (cmd_stop_recording true hideOk resp useClip rEnv wEnv rsEnv clip).2.2 =
        [Event.evalScript "showProcessing()",
         Event.evalScript "playStopSound()", Event.sleep 100,
         Event.backendStop, Event.hideWindow] ++ tail := by
    cases hideOk
    · exact ⟨[], by simp [cmd_stop_recording]⟩
    · cases h : respText resp with
      | none =>
          exact ⟨[Event.sleep 150], by simp [cmd_stop_recording, stopInject, h]⟩
      | some t =>
          exact ⟨[Event.sleep 150] ++
              (inject_text t useClip rEnv wEnv rsEnv clip).2.2,
            by simp [cmd_stop_recording, stopInject, h]⟩
  refine ⟨hdec, ?_⟩
  obtain ⟨tail, htr⟩ := hdec
  intro i hi
  by_contra h5
  push_neg at h5
  rw [htr, List.get?_append (by simpa using h5)] at hi
  have hmem := List.get?_mem hi
  simp at hmem

/-- Claim C3 witness: concrete instance with a successful hide and a
transcript present. -/
theorem cmd_stop_recording_ordering_witness :
    (∃ tail,
      (cmd_stop_recording true true (StopResp.okJson (some "hi")) true rAllOk
          wAllOk wAllOk ⟨false, none⟩).2.2 =
        [Event.evalScript "showProcessing()",
         Event.evalScript "playStopSound()", Event.sleep 100,
         Event.backendStop, Event.hideWindow] ++ tail) ∧
    (∀ i,
      (cmd_stop_recording true true (StopResp.okJson (some "hi")) true rAllOk
          wAllOk wAllOk ⟨false, none⟩).2.2.get? i = some Event.sendInput →
        5 ≤ i) :=
  cmd_stop_recording_ordering true (StopResp.okJson (some "hi")) true rAllOk
    wAllOk wAllOk ⟨false, none⟩

/-- Claim C4 counterexample: the claim demands that every stop transition
with a failed backend call returns without error; but when the overlay hide
call fails, cmd_stop_recording propagates that failure as an error (and the
overlay stays visible), even though the backend stop had failed at the
transport level. -/
theorem cmd_stop_hide_failure_cex :
    (cmd_stop_recording true false StopResp.transportErr true rAllOk wAllOk
        wAllOk ⟨false, none⟩).1 = Except.error "Failed to hide window" :=
  rfl

/-- Claim C4 (amended): when the backend stop call fails (transport error,
non-success status, unparsable body, or a missing text field), the recording
window exists and its hide call succeeds, then no injection happens (no
clipboard or SendInput event at all, clipboard state untouched), the overlay
is hidden, and cmd_stop_recording returns Ok. -/
theorem cmd_stop_backend_failure_no_injection (resp : StopResp)
    (useClip : Bool) (rEnv : ReadEnv) (wEnv rsEnv : WriteEnv)
    (clip : ClipState) (h : respText resp = none) :
    (cmd_stop_recording true true resp useClip rEnv wEnv rsEnv clip).1 =
      Except.ok () ∧
    (cmd_stop_recording true true resp useClip rEnv wEnv rsEnv clip).2.1 =
      clip ∧
    (cmd_stop_recording true true resp useClip rEnv wEnv rsEnv clip).2.2 =
      [Event.evalScript "showProcessing()", Event.evalScript "playStopSound()",
       Event.sleep 100, Event.backendStop, Event.hideWindow,
       Event.sleep 150] := by
  simp [cmd_stop_recording, stopInject, h]

/-- Claim C4 witness: concrete transport failure. -/
theorem cmd_stop_backend_failure_no_injection_witness :
    respText StopResp.transportErr = none ∧
    ((cmd_stop_recording true true StopResp.transportErr true rAllOk wAllOk
        wAllOk ⟨false, none⟩).1 = Except.ok () ∧
     (cmd_stop_recording true true StopResp.transportErr true rAllOk wAllOk
        wAllOk ⟨false, none⟩).2.1 = ⟨false, none⟩ ∧
     (cmd_stop_recording true true StopResp.transportErr true rAllOk wAllOk
        wAllOk ⟨false, none⟩).2.2 =
      [Event.evalScript "showProcessing()", Event.evalScript "playStopSound()",
       Event.sleep 100, Event.backendStop, Event.hideWindow,
       Event.sleep 150]) :=
  ⟨rfl, cmd_stop_backend_failure_no_injection StopResp.transportErr true
    rAllOk wAllOk wAllOk ⟨false, none⟩ rfl⟩

/-- Claim C5 counterexample: with prior clipboard content [65, 0] (the text
"A"), inject_text "B" with save_to_clipboard = false still succeeds when the
restore write fails (its result is discarded), yet the final clipboard holds
the injected text [66, 0], not the prior content — so success of inject_text
alone does not guarantee the prior content is restored. -/
theorem inject_text_restore_failure_cex :
    (inject_text "B" false rAllOk wAllOk ⟨false, true, true, true, true⟩
        ⟨false, some [65, 0]⟩).1 = Except.ok () ∧
    (inject_text "B" false rAllOk wAllOk ⟨false, true, true, true, true⟩
        ⟨false, some [65, 0]⟩).2.1.content = some [66, 0] ∧
    (some [66, 0] : Option (List Nat)) ≠ some [65, 0] :=
  ⟨rfl, rfl, by decide⟩

/-- Claim C5 (amended): for inject_text t false, when the prior clipboard
holds readable text c and the snapshot read, the write and the restore write
all succeed, inject_text succeeds and the final clipboard content is c again;
when the prior clipboard holds no readable text, no restore write is
attempted (the trace ends at the paste keystroke) and inject_text still
succeeds, leaving the injected text on the clipboard. -/
theorem inject_text_restores_clipboard (t : String) (c : List Nat)
    (cont : Option (List Nat)) :
    (cont = some c → c ≠ [] →
      (inject_text t false rAllOk wAllOk wAllOk ⟨false, cont⟩).1 =
        Except.ok () ∧
      (inject_text t false rAllOk wAllOk wAllOk ⟨false, cont⟩).2.1.content =
        some c) ∧
    (cont = none →
      (inject_text t false rAllOk wAllOk wAllOk ⟨false, cont⟩).1 =
        Except.ok () ∧
      (inject_text t false rAllOk wAllOk wAllOk ⟨false, cont⟩).2.1.content =
        some (utf16Encode t ++ [0]) ∧
      (inject_text t false rAllOk wAllOk wAllOk ⟨false, cont⟩).2.2 =
        (get_clipboard_text rAllOk ⟨false, none⟩).2.2 ++
        (set_clipboard_text wAllOk (utf16Encode t ++ [0]) ⟨false, none⟩).2.2 ++
        [Event.sleep 10, Event.sendInput]) := by
  constructor
  · rintro rfl hc
    have hlen : ¬ c.length = 0 := by simpa [List.length_eq_zero] using hc
    simp [inject_text, get_clipboard_text, set_clipboard_text, rAllOk, wAllOk,
      hlen]
  · rintro rfl
    simp [inject_text, get_clipboard_text, set_clipboard_text, rAllOk, wAllOk]

/-- Claim C5 witness: prior content [65, 0] is restored after injecting "B";
an empty prior clipboard yields a bare read-write-paste trace. -/
theorem inject_text_restores_clipboard_witness :
    ((some [65, 0] : Option (List Nat)) = some [65, 0] → [65, 0] ≠ ([] : List Nat) →
      (inject_text "B" false rAllOk wAllOk wAllOk
          ⟨false, some [65, 0]⟩).1 = Except.ok () ∧
      (inject_text "B" false rAllOk wAllOk wAllOk
          ⟨false, some [65, 0]⟩).2.1.content = some [65, 0]) ∧
    ((some [65, 0] : Option (List Nat)) = none →
      (inject_text "B" false rAllOk wAllOk wAllOk
          ⟨false, some [65, 0]⟩).1 = Except.ok () ∧
      (inject_text "B" false rAllOk wAllOk wAllOk
          ⟨false, some [65, 0]⟩).2.1.content =
        some (utf16Encode "B" ++ [0]) ∧
      (inject_text "B" false rAllOk wAllOk wAllOk
          ⟨false, some [65, 0]⟩).2.2 =
        (get_clipboard_text rAllOk ⟨false, none⟩).2.2 ++
        (set_clipboard_text wAllOk (utf16Encode "B" ++ [0]) ⟨false, none⟩).2.2 ++
        [Event.sleep 10, Event.sendInput]) :=
  inject_text_restores_clipboard "B" [65, 0] (some [65, 0])

/-- Claim C6: whenever inject_text t true succeeds, the final clipboard
content is exactly the injected text (its UTF-16 encoding plus the NUL
terminator): no snapshot is taken and no restore overwrites it. -/
theorem inject_text_save_to_clipboard (t : String) (rEnv : ReadEnv)
    (wEnv rsEnv : WriteEnv) (clip : ClipState)
    (h : (inject_text t true rEnv wEnv rsEnv clip).1 = Except.ok ()) :
    (inject_text t true rEnv wEnv rsEnv clip).2.1.content =
      some (utf16Encode t ++ [0]) := by
  rcases wEnv with ⟨o, e, a, l, s⟩
  cases o <;> cases e <;> cases a <;> cases l <;> cases s <;>
    simp_all [inject_text, set_clipboard_text]

/-- Claim C6 witness: injecting "A" with save_to_clipboard = true leaves
[65, 0] on the clipboard. -/
theorem inject_text_save_to_clipboard_witness :
    (inject_text "A" true rAllOk wAllOk wAllOk ⟨false, none⟩).1 =
      Except.ok () ∧
    (inject_text "A" true rAllOk wAllOk wAllOk ⟨false, none⟩).2.1.content =
      some [65, 0] :=
  ⟨rfl, inject_text_save_to_clipboard "A" rAllOk wAllOk wAllOk ⟨false, none⟩ rfl⟩

/-- Claim C7: the /start request body holds exactly the keys model_size,
language and device with the configured values — language is JSON null
exactly when the configured language is the "auto" sentinel — plus a
device_index key if and only if a microphone index is selected, carrying that
index. -/
theorem startBody_spec (model language device : String)
    (microphone : Option Int) :
    (startBody model language device microphone).lookup "model_size" =
      some (JVal.str model) ∧
    (startBody model language device microphone).lookup "device" =
      some (JVal.str device) ∧
    ((startBody model language device microphone).lookup "language" =
      some JVal.null ↔ language = "auto") ∧
    (language ≠ "auto" →
      (startBody model language device microphone).lookup "language" =
        some (JVal.str language)) ∧
    (startBody model language device microphone).map Prod.fst =
      ["model_size", "language", "device"] ++
        (if microphone.isSome then ["device_index"] else []) ∧
    (∀ i, microphone = some i →
      (startBody model language device microphone).lookup "device_index" =
        some (JVal.int i)) := by
  rcases microphone with _ | i <;> by_cases hl : language = "auto" <;>
    simp [startBody, List.lookup, hl]

/-- Claim C7 witness: the spec scenario model="small", device="auto",
language="en", no microphone selected. -/
theorem startBody_spec_witness :
    (startBody "small" "en" "auto" none).lookup "model_size" =
      some (JVal.str "small") ∧
    (startBody "small" "en" "auto" none).lookup "device" =
      some (JVal.str "auto") ∧
    ((startBody "small" "en" "auto" none).lookup "language" =
      some JVal.null ↔ "en" = "auto") ∧
    ("en" ≠ "auto" →
      (startBody "small" "en" "auto" none).lookup "language" =
        some (JVal.str "en")) ∧
    (startBody "small" "en" "auto" none).map Prod.fst =
      ["model_size", "language", "device"] ++
        (if (none : Option Int).isSome then ["device_index"] else []) ∧
    (∀ i, (none : Option Int) = some i →
      (startBody "small" "en" "auto" none).lookup "device_index" =
        some (JVal.int i)) :=
  startBody_spec "small" "en" "auto" none

/-- Claim C8: reading the clipboard leaves its state (content, and the
closed flag) exactly as it was, so a second read with no intervening write
returns the very same snapshot, state and trace. -/
theorem get_clipboard_text_idempotent (env : ReadEnv)
    (cont : Option (List Nat)) :
    (get_clipboard_text env ⟨false, cont⟩).2.1 = ⟨false, cont⟩ ∧
    get_clipboard_text env ((get_clipboard_text env ⟨false, cont⟩).2.1) =
      get_clipboard_text env ⟨false, cont⟩ := by
  have h1 : (get_clipboard_text env ⟨false, cont⟩).2.1 = ⟨false, cont⟩ := by
    unfold get_clipboard_text
    repeat' split
    all_goals simp_all
  exact ⟨h1, by rw [h1]⟩

/-- Claim C9: when the "recording" window does not exist,
cmd_toggle_recording performs no observable effect at all (empty trace, the
clipboard untouched) and returns Ok. -/
theorem cmd_toggle_recording_no_window (isVisible : Bool) (senv : StartEnv)
    (hideOk : Bool) (resp : StopResp) (model device language : String)
    (microphone : Option Int) (useClip : Bool) (rEnv : ReadEnv)
    (wEnv rsEnv : WriteEnv) (clip : ClipState) :
    cmd_toggle_recording false isVisible senv hideOk resp model device
      language microphone useClip rEnv wEnv rsEnv clip =
      (Except.ok (), clip, ([] : List Event)) :=
  rfl

/-- Claim C10: each settings command rewrites only its designated fields of
the shared state — every other field, including the backend process handle,
is preserved — and each returns Ok. -/
theorem settings_commands_frame (s : AppState) (model device language : String)
    (mi : Option Int) (enabled : Bool) (shortcuts : List (String × String)) :
    ((set_model_and_device model device s).1.selected_model = model ∧
     (set_model_and_device model device s).1.selected_device = device ∧
     (set_model_and_device model device s).1.selected_microphone =
       s.selected_microphone ∧
     (set_model_and_device model device s).1.use_clipboard = s.use_clipboard ∧
     (set_model_and_device model device s).1.selected_language =
       s.selected_language ∧
     (set_model_and_device model device s).1.toggle_shortcut =
       s.toggle_shortcut ∧
     (set_model_and_device model device s).1.backend_child =
       s.backend_child ∧
     (set_model_and_device model device s).2 = Except.ok ()) ∧
    ((set_microphone_device mi s).1.selected_microphone = mi ∧
     (set_microphone_device mi s).1.selected_model = s.selected_model ∧
     (set_microphone_device mi s).1.selected_device = s.selected_device ∧
     (set_microphone_device mi s).1.use_clipboard = s.use_clipboard ∧
     (set_microphone_device mi s).1.selected_language = s.selected_language ∧
     (set_microphone_device mi s).1.toggle_shortcut = s.toggle_shortcut ∧
     (set_microphone_device mi s).1.backend_child = s.backend_child ∧
     (set_microphone_device mi s).2 = Except.ok ()) ∧
    ((set_clipboard_paste enabled s).1.use_clipboard = enabled ∧
     (set_clipboard_paste enabled s).1.selected_model = s.selected_model ∧
     (set_clipboard_paste enabled s).1.selected_device = s.selected_device ∧
     (set_clipboard_paste enabled s).1.selected_microphone =
       s.selected_microphone ∧
     (set_clipboard_paste enabled s).1.selected_language =
       s.selected_language ∧
     (set_clipboard_paste enabled s).1.toggle_shortcut = s.toggle_shortcut ∧
     (set_clipboard_paste enabled s).1.backend_child = s.backend_child ∧
     (set_clipboard_paste enabled s).2 = Except.ok ()) ∧
    ((set_language language s).1.selected_language = language ∧
     (set_language language s).1.selected_model = s.selected_model ∧
     (set_language language s).1.selected_device = s.selected_device ∧
     (set_language language s).1.selected_microphone =
       s.selected_microphone ∧
     (set_language language s).1.use_clipboard = s.use_clipboard ∧
     (set_language language s).1.toggle_shortcut = s.toggle_shortcut ∧
     (set_language language s).1.backend_child = s.backend_child ∧
     (set_language language s).2 = Except.ok ()) ∧
    ((save_shortcuts shortcuts s).1.toggle_shortcut =
       (match shortcuts.lookup "toggle" with
        | some t => t
        | none => s.toggle_shortcut) ∧
     (save_shortcuts shortcuts s).1.selected_model = s.selected_model ∧
     (save_shortcuts shortcuts s).1.selected_device = s.selected_device ∧
     (save_shortcuts shortcuts s).1.selected_microphone =
       s.selected_microphone ∧
     (save_shortcuts shortcuts s).1.use_clipboard = s.use_clipboard ∧
     (save_shortcuts shortcuts s).1.selected_language =
       s.selected_language ∧
     (save_shortcuts shortcuts s).1.backend_child = s.backend_child ∧
     (save_shortcuts shortcuts s).2 = Except.ok ()) := by
  refine ⟨⟨rfl, rfl, rfl, rfl, rfl, rfl, rfl, rfl⟩,
    ⟨rfl, rfl, rfl, rfl, rfl, rfl, rfl, rfl⟩,
    ⟨rfl, rfl, rfl, rfl, rfl, rfl, rfl, rfl⟩,
    ⟨rfl, rfl, rfl, rfl, rfl, rfl, rfl, rfl⟩, ?_⟩
  cases h : shortcuts.lookup "toggle" <;> simp [save_shortcuts, h]
